import Mathlib

/-!
Verification of the product-catalog HTTP backend (src/index.js): an Express
app wiring a multer/Cloudinary upload pipeline, a Mongoose product schema,
a create route (POST /api/products), a list route (GET /api/products) and a
trailing error-handler middleware.  The routes are embedded shallowly as
pure functions over an explicit server state (the product collection and
the set of remotely stored assets).
-/

/-- Options passed to the media-service URL builder, as in
`cloudinary.url(id, { fetch_format: 'auto', quality: 'auto' })`. -/
structure CloudinaryUrlOptions where
  fetch_format : String
  quality : String
deriving DecidableEq, Repr

/-- Modelled from the spec: the external media service's URL-construction
rule (glossary: "CDN URL: a URL pointing at the media service's delivery
layer, parameterized to request automatic format and quality selection").
The rule itself lives in the `cloudinary` library, outside this repository;
the routes rely only on it being a pure deterministic function of the
public identifier and the options. -/
def cloudinary_url (public_id : String) (opts : CloudinaryUrlOptions) : String :=
  "https://res.cloudinary.com/cloud/image/upload/f_" ++ opts.fetch_format ++
    ",q_" ++ opts.quality ++ "/" ++ public_id

/-- Both call sites (lines 118-121 and 142-145 of index.js) pass
`fetch_format: 'auto', quality: 'auto'`. -/
def autoOpts : CloudinaryUrlOptions := ⟨"auto", "auto"⟩

/-- The file object multer attaches to `req.file` for a processed upload:
`filename` is the Cloudinary public id, `path` the canonical storage URL. -/
structure UploadedFile where
  mimetype : String
  size : Nat
  filename : String
  path : String
deriving DecidableEq, Repr

/-- Multipart text fields of a create request
(`name, description, price, category, isFeatured`, all text-encoded;
a missing field is `none`). -/
structure CreateBody where
  name : Option String
  description : Option String
  price : Option String
  category : Option String
  isFeatured : Option String
deriving DecidableEq, Repr

/-- A create request: the text fields plus the optional file part named
`image` (`none` when the request carries no file field). -/
structure CreateRequest where
  body : CreateBody
  file : Option UploadedFile
deriving DecidableEq, Repr

/-- The embedded `image` subdocument of a product. -/
structure ImageDoc where
  public_id : String
  url : String
  cdn_url : String
deriving DecidableEq, Repr

/-- A persisted product document: the Mongoose `Product` after a successful
`save`, with defaults applied and the system-managed `createdAt` timestamp. -/
structure StoredProduct where
  name : String
  description : String
  price : Int
  category : String
  isFeatured : Bool
  image : ImageDoc
  createdAt : Nat
deriving DecidableEq, Repr

/-- JS `String.prototype.startsWith`, as used by the multer `fileFilter`
(`file.mimetype.startsWith('image/')`): the characters of `pre` are an
initial segment of the characters of `s`. -/
def strStartsWith (s pre : String) : Bool := pre.data.isPrefixOf s.data

/-- JS `String.prototype.trim`, applied by the Mongoose `trim: true` setter
on `name`: strip leading and trailing whitespace. -/
def strTrim (s : String) : String :=
  ⟨((s.data.dropWhile Char.isWhitespace).reverse.dropWhile Char.isWhitespace).reverse⟩

/-- Numeric value of a decimal digit character. -/
def digitVal (c : Char) : Option Nat := if c.isDigit then some (c.toNat - 48) else none

/-- Decimal reading of a nonempty digit sequence. -/
def parseNatText (l : List Char) : Option Nat :=
  match l with
  | [] => none
  | _ => l.foldl (fun acc c => acc.bind fun n => (digitVal c).map fun d => n * 10 + d)
      (some 0)

/-- The Mongoose cast of the text-encoded `price` field to a `Number`
(integral values; a text that is not a number fails the cast, hence the
save). -/
def parseIntText (s : String) : Option Int :=
  match s.data with
  | '-' :: rest => (parseNatText rest).map fun n => -(n : Int)
  | l => (parseNatText l).map fun n => (n : Int)

/-- The `category` enum of the schema (index.js line 72). -/
def categoryEnum : List String := ["jaggery", "honey", "spices", "other"]

/-- The multer `fileSize` limit: 5 * 1024 * 1024 bytes (index.js line 52). -/
def fileSizeLimit : Nat := 5 * 1024 * 1024

/-- Construction of the candidate document (index.js lines 108-123) followed
by Mongoose schema validation at `save` (lines 64-82): `name` is trimmed and
required, `description` required, `price` cast from text and required with
`min: 0`, `category` required and constrained to the enum, the image fields
required; `isFeatured` is the handler's coercion `isFeatured === 'true'`.
Mongoose's `required` rejects missing fields and empty strings; a failed
numeric cast of `price` is likewise a failed save.  Returns the stored
document on success and `none` on a validation error. -/
def buildAndValidate (b : CreateBody) (img : ImageDoc) (now : Nat) :
    Option StoredProduct :=
  match b.name, b.description, b.price, b.category with
  | some n, some d, some pr, some c =>
    match parseIntText pr with
    | some p =>
      if (strTrim n != "") && (d != "") && decide (0 ≤ p) && categoryEnum.contains c
          && (img.public_id != "") && (img.url != "") then
        some { name := strTrim n, description := d, price := p, category := c,
               isFeatured := b.isFeatured == some "true", image := img,
               createdAt := now }
      else none
    | none => none
  | _, _, _, _ => none

/-- The `image` subdocument the create handler builds from `req.file`
(index.js lines 114-122): public id and storage URL from the upload, plus
the Cloudinary delivery URL derived from the public id with automatic
format and automatic quality. -/
def mkImageDoc (f : UploadedFile) : ImageDoc :=
  { public_id := f.filename, url := f.path,
    cdn_url := cloudinary_url f.filename autoOpts }

/-- A JSON response body: a single product, a product list, or a
`{message: ...}` object. -/
inductive ResponseBody where
  | product (p : StoredProduct)
  | products (ps : List StoredProduct)
  | message (m : String)
deriving DecidableEq, Repr

/-- An HTTP response: status code and JSON body. -/
structure HttpResponse where
  status : Nat
  body : ResponseBody
deriving DecidableEq, Repr

/-- Server-side state: the product collection (in insertion order) and the
public ids of the assets durably stored at the remote media service. -/
structure ServerState where
  db : List StoredProduct
  cloud : List String
deriving DecidableEq, Repr

/-- POST /api/products (index.js lines 100-131) together with the multer
middleware `upload.single('image')` (lines 49-61) and the trailing error
handler (lines 157-164).  Multer invokes `fileFilter` when the file part is
opened, before any bytes are streamed, so a non-image file is rejected
ahead of the size limit and ahead of the remote upload; the `fileFilter`
error is a plain `Error`, not a `MulterError`, so the error handler answers
500 with the error's message.  An oversized accepted file aborts with
`MulterError LIMIT_FILE_SIZE`, mapped to 400 "File is too large".  A
processed upload creates a durable remote object even when the subsequent
database write fails (acknowledged orphan).  The handler itself answers
400 when no file part was sent, 201 with the saved document, or 500
"Server Error" when the save fails validation. -/
def postProducts (st : ServerState) (req : CreateRequest) (now : Nat) :
    HttpResponse × ServerState :=
  match req.file with
  | none => (⟨400, .message "Product image is required"⟩, st)
  | some f =>
    if !(strStartsWith f.mimetype "image/") then
      (⟨500, .message "Only image files are allowed!"⟩, st)
    else if fileSizeLimit < f.size then
      (⟨400, .message "File is too large"⟩, st)
    else
      let cloudAfter := st.cloud ++ [f.filename]
      match buildAndValidate req.body (mkImageDoc f) now with
      | some p => (⟨201, .product p⟩, { db := st.db ++ [p], cloud := cloudAfter })
      | none => (⟨500, .message "Server Error"⟩, { st with cloud := cloudAfter })

/-- The comparator of `Product.find().sort({ createdAt: -1 })`: newest
first. -/
def byNewest (a b : StoredProduct) : Bool := decide (b.createdAt ≤ a.createdAt)

/-- The per-record map of the list route (index.js lines 138-147): spread
the stored document, keep the stored `public_id` and `url`, and overwrite
`cdn_url` with the value derived from the stored `public_id` with automatic
format and automatic quality. -/
def optimizeProduct (p : StoredProduct) : StoredProduct :=
  { p with image :=
      { public_id := p.image.public_id, url := p.image.url,
        cdn_url := cloudinary_url p.image.public_id autoOpts } }

/-- GET /api/products (index.js lines 134-154): fetch every product sorted
by `createdAt` descending, recompute each `cdn_url`, answer 200. -/
def getProducts (st : ServerState) : HttpResponse :=
  ⟨200, .products ((st.db.mergeSort byNewest).map optimizeProduct)⟩

/-- Erasure of the derived field, used to compare a listed record with a
stored one on every other field. -/
def eraseCdn (p : StoredProduct) : StoredProduct :=
  { p with image := { p.image with cdn_url := "" } }

/-- A successfully validated document carries exactly the image subdocument
the handler built from the upload. -/
theorem buildAndValidate_image (b : CreateBody) (img : ImageDoc) (now : Nat)
    (p : StoredProduct) (h : buildAndValidate b img now = some p) :
    p.image = img := by
  unfold buildAndValidate at h
  split at h
  · split at h
    · split at h
      · injection h with h
        subst h
        rfl
      · exact Option.noConfusion h
    · exact Option.noConfusion h
  · exact Option.noConfusion h

/-- A successfully validated document stores the coercion
`isFeatured === 'true'` of the submitted text field. -/
theorem buildAndValidate_isFeatured (b : CreateBody) (img : ImageDoc) (now : Nat)
    (p : StoredProduct) (h : buildAndValidate b img now = some p) :
    p.isFeatured = (b.isFeatured == some "true") := by
  unfold buildAndValidate at h
  split at h
  · split at h
    · split at h
      · injection h with h
        subst h
        rfl
      · exact Option.noConfusion h
    · exact Option.noConfusion h
  · exact Option.noConfusion h

/-- Inversion of a 201 answer of the create route: a file part was present,
it passed the MIME filter and the size limit, the document validated, and
the state gained exactly the new document and the new remote asset. -/
theorem postProducts_201_inv (st : ServerState) (req : CreateRequest) (now : Nat)
    (p : StoredProduct) (st₂ : ServerState)
    (h : postProducts st req now = (⟨201, .product p⟩, st₂)) :
    ∃ f, req.file = some f ∧ strStartsWith f.mimetype "image/" = true ∧
      f.size ≤ fileSizeLimit ∧
      buildAndValidate req.body (mkImageDoc f) now = some p ∧
      st₂ = { db := st.db ++ [p], cloud := st.cloud ++ [f.filename] } := by
  unfold postProducts at h
  split at h
  · simp at h
  · rename_i f hf
    refine ⟨f, hf, ?_⟩
    split at h
    · simp at h
    · rename_i hmime
      split at h
      · simp at h
      · rename_i hsize
        split at h
        · rename_i q hq
          simp only [Prod.mk.injEq, HttpResponse.mk.injEq,
            ResponseBody.product.injEq, true_and] at h
          obtain ⟨hqp, hst⟩ := h
          subst hqp
          exact ⟨by simpa using hmime, by omega, hq, hst.symm⟩
        · simp at h

/-- Forward run of the create route on a valid request: the multer filter
and limit pass, the document validates, the response is 201 with the saved
document, and the state gains the document and the remote asset. -/
theorem postProducts_success (st : ServerState) (req : CreateRequest) (now : Nat)
    (f : UploadedFile) (p : StoredProduct)
    (hf : req.file = some f)
    (hmime : strStartsWith f.mimetype "image/" = true)
    (hsize : f.size ≤ fileSizeLimit)
    (hok : buildAndValidate req.body (mkImageDoc f) now = some p) :
    postProducts st req now =
      (⟨201, .product p⟩, ⟨st.db ++ [p], st.cloud ++ [f.filename]⟩) := by
  unfold postProducts
  rw [hf]
  simp [hmime, Nat.not_lt.mpr hsize, hok]

/-- Schema validation fails whenever the category is absent or outside the
enum, or a required text field is missing. -/
theorem buildAndValidate_none_of_invalid (b : CreateBody) (img : ImageDoc) (now : Nat)
    (hbad : (∀ c, b.category = some c → categoryEnum.contains c = false) ∨
      b.name = none ∨ b.description = none ∨ b.price = none) :
    buildAndValidate b img now = none := by
  cases hn : b.name with
  | none => simp [buildAndValidate, hn]
  | some n =>
    cases hd : b.description with
    | none => simp [buildAndValidate, hn, hd]
    | some d =>
      cases hp : b.price with
      | none => simp [buildAndValidate, hn, hd, hp]
      | some pr =>
        cases hc : b.category with
        | none => simp [buildAndValidate, hn, hd, hp, hc]
        | some c =>
          have hcontains : categoryEnum.contains c = false := by
            rcases hbad with hcat | h | h | h
            · exact hcat c hc
            · exact absurd h (by simp [hn])
            · exact absurd h (by simp [hd])
            · exact absurd h (by simp [hp])
          cases hpr : parseIntText pr with
          | none => simp [buildAndValidate, hn, hd, hp, hc, hpr]
          | some pv =>
            have hmem : c ∉ categoryEnum := by simpa using hcontains
            simp only [buildAndValidate, hn, hd, hp, hc, hpr]
            rw [if_neg]
            simp [hmem]

/-- Forward run of the create route when the document fails schema
validation: 500 "Server Error", no product stored, orphaned remote asset. -/
theorem postProducts_validation_failure (st : ServerState) (req : CreateRequest)
    (now : Nat) (f : UploadedFile)
    (hf : req.file = some f)
    (hmime : strStartsWith f.mimetype "image/" = true)
    (hsize : f.size ≤ fileSizeLimit)
    (hnone : buildAndValidate req.body (mkImageDoc f) now = none) :
    postProducts st req now =
      (⟨500, .message "Server Error"⟩, { st with cloud := st.cloud ++ [f.filename] }) := by
  unfold postProducts
  rw [hf]
  simp [hmime, Nat.not_lt.mpr hsize, hnone]

/-- A well-formed uploaded image file as multer reports it after a
successful Cloudinary upload. -/
def okFile : UploadedFile :=
  { mimetype := "image/png", size := 2048,
    filename := "jaggery-products/abc123",
    path := "https://res.cloudinary.com/cloud/image/upload/v1/jaggery-products/abc123.webp" }

/-- A fully valid create body. -/
def okBody : CreateBody :=
  { name := "Jaggery Block", description := "Pure jaggery",
    price := some "120", category := some "jaggery", isFeatured := some "true" }

/-- A fully valid create request. -/
def okReq : CreateRequest := ⟨okBody, some okFile⟩

/-- The document the create route stores for `okReq` at time 5. -/
def okProduct : StoredProduct :=
  { name := "Jaggery Block", description := "Pure jaggery", price := 120,
    category := "jaggery", isFeatured := true, image := mkImageDoc okFile,
    createdAt := 5 }

/-- A create request that carries no file part. -/
def noFileReq : CreateRequest := ⟨okBody, none⟩

/-- An oversized (6 MB) file that is not an image. -/
def oversizedTextFile : UploadedFile :=
  { mimetype := "text/plain", size := 6 * 1024 * 1024,
    filename := "jaggery-products/big", path := "https://res.cloudinary.com/big" }

/-- A create request carrying the oversized non-image file. -/
def oversizedTextReq : CreateRequest := ⟨okBody, some oversizedTextFile⟩

/-- An oversized (6 MB) image file. -/
def oversizedImageFile : UploadedFile :=
  { mimetype := "image/jpeg", size := 6 * 1024 * 1024,
    filename := "jaggery-products/bigimg", path := "https://res.cloudinary.com/bigimg" }

/-- A create request carrying the oversized image file. -/
def oversizedImageReq : CreateRequest := ⟨okBody, some oversizedImageFile⟩

/-- A small file whose MIME type is not an image type. -/
def textFile : UploadedFile :=
  { mimetype := "text/plain", size := 10,
    filename := "jaggery-products/txt", path := "https://res.cloudinary.com/txt" }

/-- A create request carrying the non-image file. -/
def textReq : CreateRequest := ⟨⟨okBody.name, okBody.description, okBody.price, okBody.category, okBody.isFeatured⟩, some textFile⟩

/-- A create request whose category is outside the enum. -/
def badCatReq : CreateRequest :=
  ⟨{ name := some "Mango", description := some "Fresh", price := some "50",
     category := some "fruit", isFeatured := none }, some okFile⟩

/-- A valid create request that omits the isFeatured field. -/
def plainReq : CreateRequest :=
  ⟨{ name := some "Honey Jar", description := some "Raw honey",
     price := some "300", category := some "honey", isFeatured := none }, some okFile⟩

/-- The document the create route stores for `plainReq` at time 7. -/
def plainProduct : StoredProduct :=
  { name := "Honey Jar", description := "Raw honey", price := 300,
    category := "honey", isFeatured := false, image := mkImageDoc okFile,
    createdAt := 7 }

/-- C1: a create request whose fields are valid and whose image upload
succeeded is answered 201 with the stored product record; the record's
`image.cdn_url` is a deterministic function of `image.public_id` alone —
it equals the URL derived from the public id with the automatic options,
and any other successful create yielding the same public id yields the
same cdn_url. -/
theorem create_valid_201_deterministic_cdn
    (st : ServerState) (req : CreateRequest) (now : Nat) (f : UploadedFile)
    (p : StoredProduct)
    (hf : req.file = some f)
    (hmime : strStartsWith f.mimetype "image/" = true)
    (hsize : f.size ≤ fileSizeLimit)
    (hok : buildAndValidate req.body (mkImageDoc f) now = some p) :
    (postProducts st req now).1 = ⟨201, .product p⟩ ∧
    (postProducts st req now).2.db = st.db ++ [p] ∧
    p.image.cdn_url = cloudinary_url p.image.public_id autoOpts ∧
    ∀ (req₂ : CreateRequest) (now₂ : Nat) (f₂ : UploadedFile)
      (p₂ : StoredProduct), req₂.file = some f₂ →
      buildAndValidate req₂.body (mkImageDoc f₂) now₂ = some p₂ →
      p₂.image.public_id = p.image.public_id →
      p₂.image.cdn_url = p.image.cdn_url := by
  have hroute := postProducts_success st req now f p hf hmime hsize hok
  have himg := buildAndValidate_image _ _ _ _ hok
  refine ⟨by rw [hroute], by rw [hroute], by rw [himg]; rfl, ?_⟩
  intro req₂ now₂ f₂ p₂ hf₂ hok₂ hpid
  have himg₂ := buildAndValidate_image _ _ _ _ hok₂
  rw [himg, himg₂] at hpid ⊢
  simp only [mkImageDoc] at hpid ⊢
  rw [hpid]

/-- Witness for C1 at a concrete valid create request. -/
theorem create_valid_201_deterministic_cdn_witness :
    (postProducts ⟨[], []⟩ okReq 5).1 = ⟨201, .product okProduct⟩ ∧
    okProduct.image.cdn_url = cloudinary_url okProduct.image.public_id autoOpts :=
  have h := create_valid_201_deterministic_cdn ⟨[], []⟩ okReq 5 okFile okProduct
    rfl (by decide) (by decide) (by decide)
  ⟨h.1, h.2.2.1⟩

/-- C2: the list route answers 200 with every stored product, ordered by
creation time descending (most recent first), and each returned record's
`image.cdn_url` is recomputed from its `image.public_id` with automatic
format and automatic quality (the stored value is never used). -/
theorem list_200_sorted_all_derived (st : ServerState) :
    (getProducts st).status = 200 ∧
    ∃ ps, (getProducts st).body = .products ps ∧
      (ps.map eraseCdn).Perm (st.db.map eraseCdn) ∧
      ps.Pairwise (fun a b => b.createdAt ≤ a.createdAt) ∧
      ∀ p ∈ ps, p.image.cdn_url = cloudinary_url p.image.public_id autoOpts := by
  refine ⟨rfl, (st.db.mergeSort byNewest).map optimizeProduct, rfl, ?_, ?_, ?_⟩
  · rw [List.map_map]
    have hcomp : eraseCdn ∘ optimizeProduct = eraseCdn := funext fun p => rfl
    rw [hcomp]
    exact (List.mergeSort_perm st.db byNewest).map eraseCdn
  · rw [List.pairwise_map]
    have htrans : ∀ a b c : StoredProduct,
        byNewest a b → byNewest b c → byNewest a c := by
      intro a b c h1 h2
      simp only [byNewest, decide_eq_true_eq] at h1 h2 ⊢
      omega
    have htotal : ∀ a b : StoredProduct, byNewest a b || byNewest b a := by
      intro a b
      simp [byNewest, Nat.le_total]
    have hs := List.sorted_mergeSort htrans htotal st.db
    exact hs.imp fun h => by simpa [byNewest, optimizeProduct] using h
  · intro p hp
    obtain ⟨r, -, rfl⟩ := List.mem_map.mp hp
    rfl

/-- C3: a create request that carries no file field is answered 400 with
body {message: "Product image is required"}, and the state (stored
products and remote assets) is unchanged. -/
theorem create_missing_file_400_no_write
    (st : ServerState) (req : CreateRequest) (now : Nat)
    (h : req.file = none) :
    postProducts st req now = (⟨400, .message "Product image is required"⟩, st) := by
  unfold postProducts
  rw [h]

/-- Witness for C3 at a concrete fileless create request. -/
theorem create_missing_file_400_no_write_witness :
    postProducts ⟨[], []⟩ noFileReq 0 =
      (⟨400, .message "Product image is required"⟩, ⟨[], []⟩) :=
  create_missing_file_400_no_write ⟨[], []⟩ noFileReq 0 rfl

/-- C4 counterexample: a create request whose file exceeds 5 MB but is not
an image is answered 500 with the filter's message — not 400
{message: "File is too large"}: the multer MIME filter runs before the
size limit is reached. -/
theorem oversized_nonimage_answered_500 :
    fileSizeLimit < oversizedTextFile.size ∧
    (postProducts ⟨[], []⟩ oversizedTextReq 0).1 =
      ⟨500, .message "Only image files are allowed!"⟩ :=
  ⟨by decide, by decide⟩

/-- C4 (amended): a create request whose file is an image and exceeds 5 MB
is answered 400 with body {message: "File is too large"}, distinguishable
from the generic 500 {message: "Server Error"} failure, and the state
(stored products and remote assets) is unchanged. -/
theorem oversized_image_400_no_write
    (st : ServerState) (req : CreateRequest) (now : Nat) (f : UploadedFile)
    (hf : req.file = some f)
    (hmime : strStartsWith f.mimetype "image/" = true)
    (hsize : fileSizeLimit < f.size) :
    postProducts st req now = (⟨400, .message "File is too large"⟩, st) ∧
    (postProducts st req now).1 ≠ ⟨500, .message "Server Error"⟩ := by
  have h : postProducts st req now = (⟨400, .message "File is too large"⟩, st) := by
    unfold postProducts
    rw [hf]
    simp [hmime, hsize]
  refine ⟨h, ?_⟩
  rw [h]
  simp

/-- Witness for C4 (amended) at a concrete oversized image upload. -/
theorem oversized_image_400_no_write_witness :
    postProducts ⟨[], []⟩ oversizedImageReq 3 =
      (⟨400, .message "File is too large"⟩, ⟨[], []⟩) :=
  (oversized_image_400_no_write ⟨[], []⟩ oversizedImageReq 3 oversizedImageFile
    rfl (by decide) (by decide)).1

/-- C5 counterexample: a create request with a small text/plain file is
answered with status 500 — a server error, not the client error the claim
requires. -/
theorem nonimage_not_client_error :
    strStartsWith textFile.mimetype "image/" = false ∧
    (postProducts ⟨[], []⟩ textReq 0).1.status = 500 ∧
    ¬ (postProducts ⟨[], []⟩ textReq 0).1.status < 500 :=
  ⟨by decide, by decide, by decide⟩

/-- C5 (amended): a create request whose file's MIME type does not start
with image/ is rejected before the bytes reach the remote media service —
no remote asset is created and no product is stored — but the response is
500 with message "Only image files are allowed!" (the fileFilter error is
a plain Error, not a MulterError, so the error handler maps it to 500
rather than a client 4xx error). -/
theorem nonimage_rejected_before_upload
    (st : ServerState) (req : CreateRequest) (now : Nat) (f : UploadedFile)
    (hf : req.file = some f)
    (hmime : strStartsWith f.mimetype "image/" = false) :
    postProducts st req now =
      (⟨500, .message "Only image files are allowed!"⟩, st) := by
  unfold postProducts
  rw [hf]
  simp [hmime]

/-- Witness for C5 (amended) at a concrete text/plain upload. -/
theorem nonimage_rejected_before_upload_witness :
    postProducts ⟨[], []⟩ textReq 0 =
      (⟨500, .message "Only image files are allowed!"⟩, ⟨[], []⟩) :=
  nonimage_rejected_before_upload ⟨[], []⟩ textReq 0 textFile rfl (by decide)

/-- C6: a create request whose category lies outside
{jaggery, honey, spices, other} — or misses a required field — fails the
database write with a validation error: the response is 500 with body
{message: "Server Error"} and no record is persisted. -/
theorem invalid_category_500_no_write
    (st : ServerState) (req : CreateRequest) (now : Nat) (f : UploadedFile)
    (hf : req.file = some f)
    (hmime : strStartsWith f.mimetype "image/" = true)
    (hsize : f.size ≤ fileSizeLimit)
    (hbad : (∀ c, req.body.category = some c → categoryEnum.contains c = false) ∨
      req.body.name = none ∨ req.body.description = none ∨ req.body.price = none) :
    (postProducts st req now).1 = ⟨500, .message "Server Error"⟩ ∧
    (postProducts st req now).2.db = st.db := by
  have hnone := buildAndValidate_none_of_invalid req.body (mkImageDoc f) now hbad
  have h := postProducts_validation_failure st req now f hf hmime hsize hnone
  exact ⟨by rw [h], by rw [h]⟩

/-- Witness for C6 at a concrete create request with category "fruit". -/
theorem invalid_category_500_no_write_witness :
    (postProducts ⟨[], []⟩ badCatReq 0).1 = ⟨500, .message "Server Error"⟩ ∧
    (postProducts ⟨[], []⟩ badCatReq 0).2.db = [] :=
  invalid_category_500_no_write ⟨[], []⟩ badCatReq 0 okFile rfl (by decide) (by decide)
    (Or.inl fun c hc => by cases hc; decide)

/-- C7 counterexample: an invalid enum value is a client input error, yet
it is surfaced as 500 {message: "Server Error"}, not 400. -/
theorem invalid_enum_surfaced_500 :
    (postProducts ⟨[], []⟩ badCatReq 0).1 = ⟨500, .message "Server Error"⟩ ∧
    (postProducts ⟨[], []⟩ badCatReq 0).1.status ≠ 400 :=
  ⟨by decide, by decide⟩

/-- C7 (amended): of the client input errors only a missing file and an
oversized image file are surfaced as 400 with a short message; a wrong
MIME type is surfaced as 500 "Only image files are allowed!", and a
missing required field or an invalid enum value as 500 "Server Error". -/
theorem error_status_taxonomy (st : ServerState) (req : CreateRequest) (now : Nat) :
    (req.file = none →
      (postProducts st req now).1 = ⟨400, .message "Product image is required"⟩) ∧
    (∀ f, req.file = some f → strStartsWith f.mimetype "image/" = true →
      fileSizeLimit < f.size →
      (postProducts st req now).1 = ⟨400, .message "File is too large"⟩) ∧
    (∀ f, req.file = some f → strStartsWith f.mimetype "image/" = false →
      (postProducts st req now).1 = ⟨500, .message "Only image files are allowed!"⟩) ∧
    (∀ f, req.file = some f → strStartsWith f.mimetype "image/" = true →
      f.size ≤ fileSizeLimit →
      ((∀ c, req.body.category = some c → categoryEnum.contains c = false) ∨
        req.body.name = none ∨ req.body.description = none ∨ req.body.price = none) →
      (postProducts st req now).1 = ⟨500, .message "Server Error"⟩) := by
  refine ⟨?_, ?_, ?_, ?_⟩
  · intro h
    unfold postProducts
    rw [h]
  · intro f hf hmime hsize
    unfold postProducts
    rw [hf]
    simp [hmime, hsize]
  · intro f hf hmime
    unfold postProducts
    rw [hf]
    simp [hmime]
  · intro f hf hmime hsize hbad
    have hnone := buildAndValidate_none_of_invalid req.body (mkImageDoc f) now hbad
    rw [postProducts_validation_failure st req now f hf hmime hsize hnone]

/-- Witness for C7 (amended): each branch applied at a concrete request. -/
theorem error_status_taxonomy_witness :
    (postProducts ⟨[], []⟩ noFileReq 0).1 = ⟨400, .message "Product image is required"⟩ ∧
    (postProducts ⟨[], []⟩ oversizedImageReq 0).1 = ⟨400, .message "File is too large"⟩ ∧
    (postProducts ⟨[], []⟩ textReq 0).1 = ⟨500, .message "Only image files are allowed!"⟩ ∧
    (postProducts ⟨[], []⟩ badCatReq 0).1 = ⟨500, .message "Server Error"⟩ :=
  ⟨(error_status_taxonomy ⟨[], []⟩ noFileReq 0).1 rfl,
   (error_status_taxonomy ⟨[], []⟩ oversizedImageReq 0).2.1 oversizedImageFile rfl
     (by decide) (by decide),
   (error_status_taxonomy ⟨[], []⟩ textReq 0).2.2.1 textFile rfl (by decide),
   (error_status_taxonomy ⟨[], []⟩ badCatReq 0).2.2.2 okFile rfl (by decide) (by decide)
     (Or.inl fun c hc => by cases hc; decide)⟩

/-- C8: every successfully created product stores the coercion of the
text-encoded isFeatured field: exactly the literal "true" yields true, and
any other value — an absent field included — yields false. -/
theorem isFeatured_literal_true_coercion
    (st : ServerState) (req : CreateRequest) (now : Nat) (p : StoredProduct)
    (st₂ : ServerState)
    (h : postProducts st req now = (⟨201, .product p⟩, st₂)) :
    p.isFeatured = (req.body.isFeatured == some "true") := by
  obtain ⟨f, -, -, -, hok, -⟩ := postProducts_201_inv st req now p st₂ h
  exact buildAndValidate_isFeatured _ _ _ _ hok

/-- Witness for C8: the field "true" is stored as true; an absent field is
stored as false. -/
theorem isFeatured_literal_true_coercion_witness :
    (okProduct.isFeatured = (okReq.body.isFeatured == some "true") ∧
      okProduct.isFeatured = true) ∧
    (plainProduct.isFeatured = (plainReq.body.isFeatured == some "true") ∧
      plainProduct.isFeatured = false) :=
  ⟨⟨isFeatured_literal_true_coercion ⟨[], []⟩ okReq 5 okProduct
      ⟨[okProduct], [okFile.filename]⟩ (by decide), by decide⟩,
   ⟨isFeatured_literal_true_coercion ⟨[], []⟩ plainReq 7 plainProduct
      ⟨[plainProduct], [okFile.filename]⟩ (by decide), by decide⟩⟩

/-- C9: the cdn_url stored at create time equals the cdn_url recomputed at
list time for the same public_id — both are produced by the same URL
construction with the same automatic options, so the stored and the
derived value can never disagree for an unchanged public id. -/
theorem stored_and_listed_cdn_agree
    (st : ServerState) (req : CreateRequest) (now : Nat) (p : StoredProduct)
    (st₂ st₃ : ServerState) (qs : List StoredProduct) (q : StoredProduct)
    (hcreate : postProducts st req now = (⟨201, .product p⟩, st₂))
    (hlist : (getProducts st₃).body = .products qs)
    (hq : q ∈ qs)
    (hpid : q.image.public_id = p.image.public_id) :
    q.image.cdn_url = p.image.cdn_url := by
  obtain ⟨f, -, -, -, hok, -⟩ := postProducts_201_inv st req now p st₂ hcreate
  have himg := buildAndValidate_image _ _ _ _ hok
  simp only [getProducts] at hlist
  injection hlist with hqs
  subst hqs
  obtain ⟨r, -, rfl⟩ := List.mem_map.mp hq
  have hpid₂ : r.image.public_id = p.image.public_id := hpid
  calc (optimizeProduct r).image.cdn_url
      = cloudinary_url r.image.public_id autoOpts := rfl
    _ = cloudinary_url p.image.public_id autoOpts := by rw [hpid₂]
    _ = p.image.cdn_url := by rw [himg]; rfl

/-- Witness for C9: create a product, then list a store holding it; the
listed record with the same public id carries the same cdn_url. -/
theorem stored_and_listed_cdn_agree_witness :
    (optimizeProduct okProduct).image.cdn_url = okProduct.image.cdn_url :=
  stored_and_listed_cdn_agree ⟨[], []⟩ okReq 5 okProduct
    ⟨[okProduct], [okFile.filename]⟩ ⟨[okProduct], [okFile.filename]⟩
    [optimizeProduct okProduct] (optimizeProduct okProduct)
    (by decide) (by simp [getProducts]) (by simp) rfl

/-- C10: the list route returns each stored document with every field
unchanged except image.cdn_url, which is replaced by the derived value; in
particular image.public_id and image.url in the response equal the stored
values. -/
theorem list_preserves_all_but_cdn (st : ServerState) :
    ∃ qs : List StoredProduct, qs.Perm st.db ∧
      (getProducts st).body = .products (qs.map (fun p =>
        { p with image :=
            { public_id := p.image.public_id, url := p.image.url,
              cdn_url := cloudinary_url p.image.public_id autoOpts } })) :=
  ⟨st.db.mergeSort byNewest, List.mergeSort_perm st.db byNewest, rfl⟩

/-- Witness for C2 at a concrete one-product store. -/
theorem list_200_sorted_all_derived_witness :
    (getProducts ⟨[okProduct], []⟩).status = 200 :=
  (list_200_sorted_all_derived ⟨[okProduct], []⟩).1

/-- Witness for C10 at a concrete one-product store. -/
theorem list_preserves_all_but_cdn_witness :
    ∃ qs : List StoredProduct, qs.Perm [okProduct] ∧
      (getProducts ⟨[okProduct], []⟩).body = .products (qs.map (fun p =>
        { p with image :=
            { public_id := p.image.public_id, url := p.image.url,
              cdn_url := cloudinary_url p.image.public_id autoOpts } })) :=
  list_preserves_all_but_cdn ⟨[okProduct], []⟩
